import Mathlib

/-!
Verification development for the bestRoute prompt-routing engine.

The definitions below are a shallow embedding of the Python sources:
  * `src/utils/rule_based_router.py`   (class RuleBasedRouter)
  * `src/api/openrouter_client_enhanced.py` (send_prompt_to_openrouter)
  * `src/utils/model_call_logger.py`   (ModelCallLogger.log_model_call)
  * `src/utils/cost_tracker.py`        (CostTracker.log_api_call)

Modelling conventions:
  * Python dicts with possibly-missing keys become structures with `Option`
    fields; `d.get(k, default)` becomes `Option.getD`.
  * Python floats (model prices, temperatures) become `ℚ`.
  * The external regular-expression engine (`re.search` over the fixed
    pattern lists) and the external network endpoint are modelled as
    oracle functions carried in an `Env` value; everything the repository
    itself computes from their answers is embedded directly.
  * Exceptions become explicit result constructors; the side-effecting log
    writers become lists of records threaded through the computation.
-/

namespace BestRoute

/-- Message as received by `send_prompt_to_openrouter`: a Python dict in
which the "role" and "content" keys may be absent (`none`) or map to a
string.  Used by the gateway validation (openrouter_client_enhanced.py
lines 100-109). -/
structure GMessage where
  role : Option String
  content : Option String
deriving DecidableEq

/-- Message as typed in `RuleBasedRouter.send_prompt`
(`List[Dict[str, str]]`): both keys present with string values. -/
structure RMessage where
  role : String
  content : String
deriving DecidableEq

/-- Embeds the per-message scan of openrouter_client_enhanced.py lines
105-109: the first message missing the "role" key fails, else the first
one missing the "content" key fails. -/
def scanMessages : List GMessage → Except String Unit
  | [] => Except.ok ()
  | m :: rest =>
      if m.role.isNone then Except.error "Message is missing the role field"
      else if m.content.isNone then Except.error "Message is missing the content field"
      else scanMessages rest

/-- Embeds the validation prefix of `send_prompt_to_openrouter`
(openrouter_client_enhanced.py lines 100-109): an empty list fails, then
each message must carry both the "role" and the "content" key.  The check
is on key presence only; the values themselves are not inspected. -/
def validateMessages (msgs : List GMessage) : Except String Unit :=
  if msgs.isEmpty then Except.error "Messages list cannot be empty"
  else scanMessages msgs

/-- Embeds `RuleBasedRouter.determine_length_category`
(rule_based_router.py lines 286-301) with the thresholds from the
`length_categories` dict of `__init__` (lines 50-54): short = 500,
medium = 2000. -/
def determine_length_category (token_count : ℕ) : String :=
  if token_count ≤ 500 then "short"
  else if token_count ≤ 2000 then "medium"
  else "long"

/-- Embeds the allowed-strategy membership test of
`RuleBasedRouter.set_routing_strategy` (rule_based_router.py line 142). -/
def isValidStrategy (s : String) : Bool :=
  s = "balanced" || s = "cost" || s = "speed" || s = "quality"

/-- Embeds `RuleBasedRouter.set_routing_strategy` (rule_based_router.py
lines 135-147) as a function from the previous `routing_strategy` value
and the argument to the new `routing_strategy` value: a recognised
strategy is stored, anything else stores "balanced". -/
def set_routing_strategy (previous : String) (strategy : String) : String :=
  if isValidStrategy strategy then strategy else "balanced"

/-- Embeds the decision tail of `RuleBasedRouter.classify_prompt`
(rule_based_router.py lines 233-265), which maps the three
regular-expression match counts, the zero-match code-syntax test and the
prompt character length to the returned category.  `max_matches` is
`max(code, summary, question)`; ties are resolved by the if/elif chain in
source order: code, then summary, then question. -/
def classifyDecision (code_matches summary_matches question_matches : ℕ)
    (codeLikeSyntax : Bool) (promptLen : ℕ) : String :=
  let max_matches := max code_matches (max summary_matches question_matches)
  if max_matches = 0 then
    if codeLikeSyntax then "code"
    else if promptLen > 1000 then "summary"
    else "question"
  else if code_matches = max_matches then "code"
  else if summary_matches = max_matches then "summary"
  else "question"

/-- Characters matched by the zero-match branch regex `[{};()]` of
rule_based_router.py line 245, given by code points
123 = lbrace, 125 = rbrace, 59 = semicolon, 40 = lparen, 41 = rparen. -/
def codeSyntaxChars : List Char :=
  [Char.ofNat 123, Char.ofNat 125, Char.ofNat 59, Char.ofNat 40, Char.ofNat 41]

/-- Embeds the zero-match test of rule_based_router.py line 245:
`re.search(r'[...]', prompt)` (some bracket/semicolon/paren character
occurs) and `len(prompt.split('\n')) > 3`. -/
def codeLikeSyntaxTest (prompt : String) : Bool :=
  (prompt.toList.any (fun c => codeSyntaxChars.contains c)) &&
    decide ((prompt.splitOn "\n").length > 3)

/-- Per-model configuration entry (the value of `config["models"][id]`):
each field mirrors a dict key that may be absent. -/
structure ModelCfg where
  costPer1k : Option ℚ
  contextLength : Option ℕ
  maxTokens : Option ℕ
  temperature : Option ℚ
deriving DecidableEq

/-- Per-prompt-type model preference overrides
(`config["code_models"]` etc.): a dict with optional
short/medium/long keys. -/
structure TypePrefs where
  short : Option String
  medium : Option String
  long : Option String
deriving DecidableEq

/-- Configuration dictionary handed to `RuleBasedRouter.__init__`
(rule_based_router.py lines 35-83).  `models` is an association list to
keep Python's dict insertion order, which the sorted views depend on. -/
structure Config where
  models : List (String × ModelCfg)
  defaultModel : Option String
  optimizationTarget : Option String
  codeModels : TypePrefs
  summaryModels : TypePrefs
  questionModels : TypePrefs
deriving DecidableEq

/-- Embeds `self.default_model`: `config.get("default_model")` followed by
the falsy check at rule_based_router.py lines 81-83 replacing a missing or
empty value with "anthropic/claude-3-haiku". -/
def Config.effectiveDefaultModel (cfg : Config) : String :=
  match cfg.defaultModel with
  | none => "anthropic/claude-3-haiku"
  | some s => if s = "" then "anthropic/claude-3-haiku" else s

/-- Embeds `self.models.get(model_id)` / `model_id in self.models`:
lookup in the ordered model dict. -/
def Config.lookupModel (cfg : Config) (modelId : String) : Option ModelCfg :=
  (cfg.models.find? (fun p => p.1 = modelId)).map (fun p => p.2)

/-- Stable insertion into a list kept in non-increasing key order.  The
sort below peels elements off from the left and inserts each into the
sorted remainder, so the inserted element is the earliest of the
remaining ones in original order and is placed before any equal-key
element, matching the stable semantics of Python
`sorted(..., reverse=True)`. -/
def insertDescBy (key : String × ModelCfg → ℚ) (x : String × ModelCfg) :
    List (String × ModelCfg) → List (String × ModelCfg)
  | [] => [x]
  | y :: ys => if key y ≤ key x then x :: y :: ys
               else y :: insertDescBy key x ys

/-- Stable sort in non-increasing key order (Python
`sorted(..., key=..., reverse=True)`): equal-key elements keep their
original relative order. -/
def sortDescBy (key : String × ModelCfg → ℚ) :
    List (String × ModelCfg) → List (String × ModelCfg)
  | [] => []
  | x :: xs => insertDescBy key x (sortDescBy key xs)

/-- Stable insertion into a list kept in non-decreasing key order,
matching Python `sorted(..., key=...)`. -/
def insertAscBy (key : String × ModelCfg → ℚ) (x : String × ModelCfg) :
    List (String × ModelCfg) → List (String × ModelCfg)
  | [] => [x]
  | y :: ys => if key x ≤ key y then x :: y :: ys
               else y :: insertAscBy key x ys

/-- Stable sort in non-decreasing key order (Python
`sorted(..., key=...)`). -/
def sortAscBy (key : String × ModelCfg → ℚ) :
    List (String × ModelCfg) → List (String × ModelCfg)
  | [] => []
  | x :: xs => insertAscBy key x (sortAscBy key xs)

/-- Sort key of `models_by_cost` and `models_by_speed`
(rule_based_router.py lines 100 and 105):
`self.models[m].get("cost_per_1k_tokens", 999)`. -/
def costKey (p : String × ModelCfg) : ℚ := p.2.costPer1k.getD 999

/-- Sort key of `models_by_quality` (rule_based_router.py line 108):
`self.models[m].get("cost_per_1k_tokens", 0)`. -/
def qualityKey (p : String × ModelCfg) : ℚ := p.2.costPer1k.getD 0

/-- Embeds `models_by_cost` (and the identical `models_by_speed`) of
`_initialize_strategy_preferences`: model ids sorted by price ascending. -/
def modelsByCost (cfg : Config) : List String :=
  (sortAscBy costKey cfg.models).map (fun p => p.1)

/-- Embeds `models_by_quality` of `_initialize_strategy_preferences`
(rule_based_router.py line 108): model ids sorted by price descending. -/
def modelsByQuality (cfg : Config) : List String :=
  (sortDescBy qualityKey cfg.models).map (fun p => p.1)

/-- Embeds the `self.model_preferences` dict built in
`RuleBasedRouter.__init__` (rule_based_router.py lines 60-76), keyed by
prompt type then length category; `none` for keys the dict does not
have. -/
def modelPreferences (cfg : Config) (promptType lengthCategory : String) :
    Option String :=
  if promptType = "code" then
    if lengthCategory = "short" then some (cfg.codeModels.short.getD "openai/gpt-4o")
    else if lengthCategory = "medium" then some (cfg.codeModels.medium.getD "openai/gpt-4o")
    else if lengthCategory = "long" then some (cfg.codeModels.long.getD "anthropic/claude-3-opus")
    else none
  else if promptType = "summary" then
    if lengthCategory = "short" then some (cfg.summaryModels.short.getD "anthropic/claude-3-haiku")
    else if lengthCategory = "medium" then some (cfg.summaryModels.medium.getD "anthropic/claude-3-sonnet")
    else if lengthCategory = "long" then some (cfg.summaryModels.long.getD "anthropic/claude-3-sonnet")
    else none
  else if promptType = "question" then
    if lengthCategory = "short" then some (cfg.questionModels.short.getD "anthropic/claude-3-haiku")
    else if lengthCategory = "medium" then some (cfg.questionModels.medium.getD "anthropic/claude-3-haiku")
    else if lengthCategory = "long" then some (cfg.questionModels.long.getD "anthropic/claude-3-sonnet")
    else none
  else none

/-- Test for the prompt-type keys every strategy dict is populated with
(the loop of rule_based_router.py line 111). -/
def isKnownPromptType (promptType : String) : Bool :=
  promptType = "code" || promptType = "summary" || promptType = "question"

/-- Test for the length-category keys of the cost/speed/quality dicts
(rule_based_router.py lines 112-128). -/
def isKnownLength (lengthCategory : String) : Bool :=
  lengthCategory = "short" || lengthCategory = "medium" || lengthCategory = "long"

/-- Embeds the `self.strategy_preferences` table built by
`RuleBasedRouter._initialize_strategy_preferences` (rule_based_router.py
lines 85-133), as the chained dict lookup
`strategy_preferences.get(strategy, -).get(prompt_type, -).get(length_category, -)`
returning `none` where a key is absent:
  * cost and speed: the head of the ascending price order (default model
    on an empty catalog), for all three lengths;
  * quality: the head of the descending price order for short and medium,
    its second element for long when the catalog has at least two models
    (else the head, else the default model);
  * balanced: the `model_preferences` table. -/
def strategyPreference (cfg : Config) (strategy promptType lengthCategory : String) :
    Option String :=
  if strategy = "cost" ∨ strategy = "speed" then
    if isKnownPromptType promptType ∧ isKnownLength lengthCategory then
      some ((modelsByCost cfg).headD cfg.effectiveDefaultModel)
    else none
  else if strategy = "quality" then
    if isKnownPromptType promptType then
      if lengthCategory = "short" ∨ lengthCategory = "medium" then
        some ((modelsByQuality cfg).headD cfg.effectiveDefaultModel)
      else if lengthCategory = "long" then
        some (if (modelsByQuality cfg).length > 1 then
                ((modelsByQuality cfg).get? 1).getD cfg.effectiveDefaultModel
              else (modelsByQuality cfg).headD cfg.effectiveDefaultModel)
      else none
    else none
  else if strategy = "balanced" then
    if isKnownPromptType promptType then modelPreferences cfg promptType lengthCategory
    else none
  else none

/-- Outcome of one network request against the external completion
endpoint, as seen after the response processing of
openrouter_client_enhanced.py lines 142-213: either the three token
counts extracted from `usage`, or the text of the raised exception. -/
inductive GatewayResult where
  | ok (promptTokens completionTokens totalTokens : ℕ)
  | err (message : String)
deriving DecidableEq

/-- Oracles for the external collaborators: the regular-expression engine
(match counts of the three fixed pattern lists of `classify_prompt` for a
given prompt), the tokenizer behind `estimate_token_count`, and the
completion endpoint (indexed by how many network requests were issued
before). -/
structure Env where
  matchCounts : String → ℕ × ℕ × ℕ
  tokenEstimate : String → ℕ
  gateway : ℕ → GatewayResult

/-- Embeds `RuleBasedRouter.classify_prompt` (rule_based_router.py lines
149-265): the three pattern-match counts come from the regex oracle, the
zero-match branch tests are computed directly. -/
def classify_prompt (env : Env) (prompt : String) : String :=
  let counts := env.matchCounts prompt
  classifyDecision counts.1 counts.2.1 counts.2.2 (codeLikeSyntaxTest prompt) prompt.length

/-- Router state used by the embedded methods: the configuration snapshot
and the mutable `routing_strategy` field. -/
structure Router where
  cfg : Config
  routingStrategy : String
deriving DecidableEq

/-- Embeds the `routing_strategy` initialisation of `__init__`
(rule_based_router.py line 57): `config.get("optimization_target", "balanced")`. -/
def mkRouter (cfg : Config) : Router :=
  ⟨cfg, cfg.optimizationTarget.getD "balanced"⟩

/-- Embeds `RuleBasedRouter.select_model` (rule_based_router.py lines
303-361): classify the prompt, bucket its estimated length, take the
current strategy's candidate (`model_candidates.get(self.routing_strategy,
self.default_model)`, where candidates exist exactly for the four known
strategies), then replace a candidate that is not a key of `self.models`
by the default model. -/
def select_model (env : Env) (r : Router) (prompt : String) : String :=
  let promptType := classify_prompt env prompt
  let tokenCount := env.tokenEstimate prompt
  let lengthCategory := determine_length_category tokenCount
  let modelId :=
    if isValidStrategy r.routingStrategy then
      (strategyPreference r.cfg r.routingStrategy promptType lengthCategory).getD
        r.cfg.effectiveDefaultModel
    else r.cfg.effectiveDefaultModel
  if (r.cfg.lookupModel modelId).isNone then r.cfg.effectiveDefaultModel else modelId

/-- Usage statistics dict.  The `cost` field mirrors the optional "cost"
key: the dict built by the gateway on success
(openrouter_client_enhanced.py lines 177-184) has no such key (`none`),
while the `failed_usage_stats` dicts of rule_based_router.py lines
521-526 and 633-638 set it to 0. -/
structure UsageStats where
  promptTokens : ℕ
  completionTokens : ℕ
  totalTokens : ℕ
  cost : Option ℚ
deriving DecidableEq

/-- Arguments of one network request issued to the completion endpoint. -/
structure GatewayCall where
  model : String
  temperature : ℚ
  maxTokens : ℕ
deriving DecidableEq

/-- Embeds `send_prompt_to_openrouter` (openrouter_client_enhanced.py
lines 75-213): validation first — a validation failure raises before any
network request — then one network request whose outcome the gateway
oracle supplies.  Returns the result together with the network requests
issued (none on validation failure, exactly one otherwise). -/
def send_prompt_to_openrouter (env : Env) (callIdx : ℕ) (msgs : List GMessage)
    (model : String) (temperature : ℚ) (maxTokens : ℕ) :
    Except String UsageStats × List GatewayCall :=
  match validateMessages msgs with
  | Except.error e => (Except.error e, [])
  | Except.ok _ =>
    match env.gateway callIdx with
    | GatewayResult.ok pt ct tt =>
        (Except.ok ⟨pt, ct, tt, none⟩, [⟨model, temperature, maxTokens⟩])
    | GatewayResult.err e => (Except.error e, [⟨model, temperature, maxTokens⟩])

/-- Conversion from the router-level message type (both keys present) to
the gateway-level one. -/
def RMessage.toG (m : RMessage) : GMessage := ⟨some m.role, some m.content⟩

/-- Call record as written by `ModelCallLogger.log_model_call`
(model_call_logger.py lines 62-176), restricted to the fields the claims
mention.  `cost` is `usage_stats.get("cost", 0)` (line 117);
`metaMaxTokens` and `metaRetry` mirror the `additional_metadata` keys
"max_tokens" and "retry" merged into the entry (line 128). -/
structure CallRecord where
  modelId : String
  strategy : String
  manualSelection : Bool
  promptTokens : ℕ
  totalTokens : ℕ
  cost : ℚ
  success : Bool
  errorType : Option String
  metaMaxTokens : Option ℕ
  metaRetry : Bool
deriving DecidableEq

/-- Embeds the entry construction of `ModelCallLogger.log_model_call`
(model_call_logger.py lines 100-128): in particular
`"cost": usage_stats.get("cost", 0)` and
`"token_count": usage_stats.get("total_tokens", 0)`. -/
def log_model_call (modelId strategy : String) (manualSelection : Bool)
    (usage : UsageStats) (success : Bool) (errorType : Option String)
    (metaMaxTokens : Option ℕ) (metaRetry : Bool) : CallRecord :=
  { modelId := modelId, strategy := strategy, manualSelection := manualSelection,
    promptTokens := usage.promptTokens, totalTokens := usage.totalTokens,
    cost := usage.cost.getD 0, success := success, errorType := errorType,
    metaMaxTokens := metaMaxTokens, metaRetry := metaRetry }

/-- Row appended to the cost CSV by `CostTracker.log_api_call`
(cost_tracker.py lines 106-127). -/
structure LedgerEntry where
  model : String
  promptTokens : ℕ
  completionTokens : ℕ
  totalTokens : ℕ
  cost : ℚ
deriving DecidableEq

/-- Embeds `CostTracker.log_api_call` (cost_tracker.py lines 78-135):
price looked up with default 0, `total_tokens` replaced by
`prompt_tokens + completion_tokens` when it is 0 (the Python `or`), cost
computed as `(total_tokens * cost_per_1k) / 1000`. -/
def log_api_call (cfg : Config) (model : String) (usage : UsageStats) : LedgerEntry :=
  let costPer1k := ((cfg.lookupModel model).bind (fun m => m.costPer1k)).getD 0
  let totalTokens := if usage.totalTokens ≠ 0 then usage.totalTokens
                     else usage.promptTokens + usage.completionTokens
  ⟨model, usage.promptTokens, usage.completionTokens, totalTokens,
   (totalTokens : ℚ) * costPer1k / 1000⟩

/-- Substring test, embedding Python `needle in haystack`. -/
def strContains (haystack needle : String) : Bool :=
  haystack.toList.tails.any (fun t => needle.toList.isPrefixOf t)

/-- ASCII lower-casing of one character, modelling Python `str.lower()`
on the ASCII error strings the token-limit check compares against
(code points 65-90 shift to 97-122). -/
def pyLowerChar (c : Char) : Char :=
  if 65 ≤ c.toNat ∧ c.toNat ≤ 90 then Char.ofNat (c.toNat + 32) else c

/-- ASCII lower-casing of a string, modelling Python `str.lower()`. -/
def pyLower (s : String) : String := String.mk (s.data.map pyLowerChar)

/-- Embeds the token-limit check of rule_based_router.py lines 554-555:
`error_str = str(e).lower()` contains "maximum context length", "token"
or "too long". -/
def isTokenLimitError (e : String) : Bool :=
  strContains (pyLower e) "maximum context length" ||
    strContains (pyLower e) "token" || strContains (pyLower e) "too long"

/-- Embeds the max_tokens selection of rule_based_router.py lines
427-434: `model_info.get("max_tokens", 1000)` capped at 4000. -/
def effectiveMaxTokens (cfg : Config) (modelId : String) : ℕ :=
  let mt := ((cfg.lookupModel modelId).bind (fun m => m.maxTokens)).getD 1000
  if mt > 4000 then 4000 else mt

/-- Embeds `model_info.get("temperature", 0.7)` of rule_based_router.py
line 425. -/
def effectiveTemperature (cfg : Config) (modelId : String) : ℚ :=
  ((cfg.lookupModel modelId).bind (fun m => m.temperature)).getD (7 / 10)

/-- Final result of an embedded `send_prompt` run: the returned usage on
success, the ValueError of rule_based_router.py line 392, the re-raised
upstream exception of line 697, or exhaustion of the recursion budget of
the embedding (shown unreachable for budget 2 by
`sendPromptFuel_stable`). -/
inductive SendResult where
  | success (usage : UsageStats)
  | valueError
  | upstreamFailure (message : String)
  | outOfFuel
deriving DecidableEq

/-- Everything observable about one `send_prompt` invocation: its result,
the call records written through `log_model_call`, the cost-ledger rows
written through `cost_tracker.log_api_call`, and the network requests
issued, each in order. -/
structure SendOutcome where
  result : SendResult
  records : List CallRecord
  ledger : List LedgerEntry
  callLog : List GatewayCall
deriving DecidableEq

/-- Embeds `RuleBasedRouter.send_prompt` (rule_based_router.py lines
377-697).  The Python function recurses into itself for the
default-model fallback (line 694); the embedding makes that recursion
explicit on a fuel parameter, consuming one unit per activation.
Control flow, in source order: ValueError when no message has role
"user"; model selection (override or `select_model`); first upstream
attempt; on success one success record and one ledger row; on failure
one failure record, then — when the error text indicates a token limit —
one retry with `max(max_tokens // 2, 500)` tokens (success record and
ledger row, or second failure record); then, when the model differs from
the default model, a fallback record with strategy "fallback" followed
by the recursive call with the default model as override; otherwise the
original exception is re-raised. -/
def sendPromptFuel : ℕ → Env → Router → List RMessage → Option String → ℕ → SendOutcome
  | 0, _, _, _, _, _ => ⟨SendResult.outOfFuel, [], [], []⟩
  | fuel + 1, env, r, messages, modelOverride, callIdx =>
    let userMessages := messages.filter (fun m => m.role = "user")
    match userMessages.getLast? with
    | none => ⟨SendResult.valueError, [], [], []⟩
    | some lastUser =>
      let prompt := lastUser.content
      let manualSelection := modelOverride.isSome
      let modelId := match modelOverride with
        | some m => m
        | none => select_model env r prompt
      let originalStrategy := if modelOverride.isSome then "manual" else r.routingStrategy
      let temperature := effectiveTemperature r.cfg modelId
      let maxTokens := effectiveMaxTokens r.cfg modelId
      let promptTokens := env.tokenEstimate prompt
      let gmsgs := messages.map RMessage.toG
      match send_prompt_to_openrouter env callIdx gmsgs modelId temperature maxTokens with
      | (Except.ok usage, calls1) =>
          ⟨SendResult.success usage,
           [log_model_call modelId originalStrategy manualSelection usage true none
              (some maxTokens) false],
           [log_api_call r.cfg modelId usage],
           calls1⟩
      | (Except.error e, calls1) =>
          let failedUsage : UsageStats := ⟨promptTokens, 0, promptTokens, some 0⟩
          let rec1 := log_model_call modelId originalStrategy manualSelection failedUsage
            false (some e) (some maxTokens) false
          if isTokenLimitError e then
            let reducedMaxTokens := max (maxTokens / 2) 500
            match send_prompt_to_openrouter env (callIdx + calls1.length) gmsgs modelId
                temperature reducedMaxTokens with
            | (Except.ok usage2, calls2) =>
                ⟨SendResult.success usage2,
                 [rec1, log_model_call modelId originalStrategy manualSelection usage2 true
                    none (some reducedMaxTokens) true],
                 [log_api_call r.cfg modelId usage2],
                 calls1 ++ calls2⟩
            | (Except.error e2, calls2) =>
                let rec2 := log_model_call modelId originalStrategy manualSelection failedUsage
                  false (some e2) (some reducedMaxTokens) true
                if modelId ≠ r.cfg.effectiveDefaultModel then
                  let recFB := log_model_call modelId "fallback" false
                    ⟨promptTokens, 0, promptTokens, none⟩ false (some e) none false
                  let inner := sendPromptFuel fuel env r messages
                    (some r.cfg.effectiveDefaultModel) (callIdx + calls1.length + calls2.length)
                  ⟨inner.result, [rec1, rec2, recFB] ++ inner.records, inner.ledger,
                   calls1 ++ calls2 ++ inner.callLog⟩
                else ⟨SendResult.upstreamFailure e, [rec1, rec2], [], calls1 ++ calls2⟩
          else
            if modelId ≠ r.cfg.effectiveDefaultModel then
              let recFB := log_model_call modelId "fallback" false
                ⟨promptTokens, 0, promptTokens, none⟩ false (some e) none false
              let inner := sendPromptFuel fuel env r messages
                (some r.cfg.effectiveDefaultModel) (callIdx + calls1.length)
              ⟨inner.result, [rec1, recFB] ++ inner.records, inner.ledger,
               calls1 ++ inner.callLog⟩
            else ⟨SendResult.upstreamFailure e, [rec1], [], calls1⟩

/-- Embeds `RuleBasedRouter.send_prompt` proper.  The fallback recursion
of the source is self-limiting — the recursive call passes the default
model, for which the fallback guard is false — so a budget of 2
activations is exact; `sendPromptFuel_stable` proves any larger budget
gives the same outcome. -/
def send_prompt (env : Env) (r : Router) (messages : List RMessage)
    (modelOverride : Option String) : SendOutcome :=
  sendPromptFuel 2 env r messages modelOverride 0

/-! Concrete fixtures used by counterexamples and witnesses. -/

/-- Cheap model: price 1/4 per 1K tokens, max_tokens 1000. -/
def modelCfgA : ModelCfg := ⟨some (1 / 4), some 200000, some 1000, some (7 / 10)⟩

/-- Expensive model: price 15 per 1K tokens, max_tokens 2000. -/
def modelCfgB : ModelCfg := ⟨some 15, some 100000, some 2000, some (1 / 2)⟩

/-- Two-model catalog with "modelA" as default model. -/
def cfgCE : Config :=
  { models := [("modelA", modelCfgA), ("modelB", modelCfgB)]
    defaultModel := some "modelA"
    optimizationTarget := some "balanced"
    codeModels := ⟨none, none, none⟩
    summaryModels := ⟨none, none, none⟩
    questionModels := ⟨none, none, none⟩ }

/-- Same catalog with "modelB" as default model, so that "modelA"
(max_tokens 1000) is a non-default choice. -/
def cfgC4 : Config :=
  { cfgCE with defaultModel := some "modelB" }

/-- Environment in which every upstream request fails with a
context-length error. -/
def envTokenFail : Env :=
  { matchCounts := fun _ => (0, 0, 0)
    tokenEstimate := fun _ => 10
    gateway := fun _ => GatewayResult.err "maximum context length exceeded" }

/-- Environment in which every upstream request succeeds with 1000 total
tokens. -/
def envAllOk : Env :=
  { matchCounts := fun _ => (0, 0, 0)
    tokenEstimate := fun _ => 10
    gateway := fun _ => GatewayResult.ok 400 600 1000 }

/-- Single user message. -/
def msgsUser : List RMessage := [⟨"user", "hello"⟩]

/-! Claim theorems. -/

/-- C7: `determine_length_category` is a total partition of the
non-negative token counts with no gaps or overlaps: "short" exactly on
counts ≤ 500, "medium" exactly on 500 < count ≤ 2000, "long" exactly on
counts > 2000. -/
theorem length_category_partition (token_count : ℕ) :
    (determine_length_category token_count = "short" ↔ token_count ≤ 500) ∧
    (determine_length_category token_count = "medium" ↔
      500 < token_count ∧ token_count ≤ 2000) ∧
    (determine_length_category token_count = "long" ↔ 2000 < token_count) := by
  have d1 : ("short" : String) ≠ "medium" := by decide
  have d2 : ("short" : String) ≠ "long" := by decide
  have d3 : ("medium" : String) ≠ "short" := by decide
  have d4 : ("medium" : String) ≠ "long" := by decide
  have d5 : ("long" : String) ≠ "short" := by decide
  have d6 : ("long" : String) ≠ "medium" := by decide
  unfold determine_length_category
  rcases le_or_lt token_count 500 with hs | hs
  · rw [if_pos hs]
    exact ⟨⟨fun _ => hs, fun _ => rfl⟩,
           ⟨fun hh => absurd hh d1, fun hh => by omega⟩,
           ⟨fun hh => absurd hh d2, fun hh => by omega⟩⟩
  · rw [if_neg (by omega)]
    rcases le_or_lt token_count 2000 with hm | hm
    · rw [if_pos hm]
      exact ⟨⟨fun hh => absurd hh d3, fun hh => by omega⟩,
             ⟨fun _ => ⟨hs, hm⟩, fun _ => rfl⟩,
             ⟨fun hh => absurd hh d4, fun hh => by omega⟩⟩
    · rw [if_neg (by omega)]
      exact ⟨⟨fun hh => absurd hh d5, fun hh => by omega⟩,
             ⟨fun hh => absurd hh d6, fun hh => by omega⟩,
             ⟨fun _ => hm, fun _ => rfl⟩⟩

/-- C9: after `set_routing_strategy`, the stored `routing_strategy` is one
of the four recognised strategies; an unrecognised argument stores
"balanced" regardless of the previous value. -/
theorem set_strategy_valid_or_balanced (previous strategy : String) :
    (set_routing_strategy previous strategy = "balanced" ∨
     set_routing_strategy previous strategy = "cost" ∨
     set_routing_strategy previous strategy = "speed" ∨
     set_routing_strategy previous strategy = "quality") ∧
    (strategy ≠ "balanced" → strategy ≠ "cost" → strategy ≠ "speed" →
      strategy ≠ "quality" → set_routing_strategy previous strategy = "balanced") := by
  unfold set_routing_strategy isValidStrategy
  constructor
  · split
    next h => simp only [Bool.or_eq_true, decide_eq_true_eq] at h; tauto
    next => tauto
  · intro h1 h2 h3 h4
    split
    next h => simp only [Bool.or_eq_true, decide_eq_true_eq] at h; tauto
    next => rfl

/-- C9 witness: the unrecognised strategy "foo" overwrites a previous
value of "quality" with "balanced". -/
theorem set_strategy_valid_or_balanced_witness :
    ((set_routing_strategy "quality" "foo" = "balanced" ∨
      set_routing_strategy "quality" "foo" = "cost" ∨
      set_routing_strategy "quality" "foo" = "speed" ∨
      set_routing_strategy "quality" "foo" = "quality") ∧
     (("foo" : String) ≠ "balanced" → ("foo" : String) ≠ "cost" →
      ("foo" : String) ≠ "speed" → ("foo" : String) ≠ "quality" →
      set_routing_strategy "quality" "foo" = "balanced")) ∧
    set_routing_strategy "quality" "foo" = "balanced" :=
  ⟨set_strategy_valid_or_balanced "quality" "foo",
   (set_strategy_valid_or_balanced "quality" "foo").2
     (by decide) (by decide) (by decide) (by decide)⟩

/-- C3 counterexample: with one code match, one summary match and no
question match — a tie at the maximum — `classify_prompt`'s decision
returns "code" even though the code count is not strictly greater than
the summary count, so the claim's "only if strictly greater" fails. -/
theorem classify_tie_returns_code :
    classifyDecision 1 1 0 false 5 = "code" ∧ ¬ (1 > 1) := by
  constructor
  · rfl
  · omega

/-- C3 amended: on a prompt where at least one pattern category matches,
the decision returns "code" exactly when the code count is at least both
the summary and the question count (a tie at the maximum resolves to
"code"). -/
theorem classify_code_iff_count_ge
    (code summary question : ℕ) (codeLike : Bool) (promptLen : ℕ)
    (h : 0 < max code (max summary question)) :
    classifyDecision code summary question codeLike promptLen = "code" ↔
      summary ≤ code ∧ question ≤ code := by
  unfold classifyDecision
  rw [if_neg (by omega)]
  constructor
  · intro hres
    by_contra hcon
    have hne : ¬ code = max code (max summary question) := by omega
    rw [if_neg hne] at hres
    have ds : ("summary" : String) ≠ "code" := by decide
    have dq : ("question" : String) ≠ "code" := by decide
    split at hres
    · exact ds hres
    · exact dq hres
  · intro ⟨h1, h2⟩
    rw [if_pos (by omega)]

/-- C3 amended-claim witness: counts (2, 1, 0) classify as "code". -/
theorem classify_code_iff_count_ge_witness :
    0 < max 2 (max 1 0) ∧
    (classifyDecision 2 1 0 false 5 = "code" ↔ 1 ≤ 2 ∧ 0 ≤ 2) :=
  ⟨by decide, classify_code_iff_count_ge 2 1 0 false 5 (by decide)⟩

/-- C8: the decision of `classify_prompt` resolves the category by a
fixed priority — whenever at least one pattern matches, a code count
attaining the maximum yields "code"; otherwise a summary count attaining
the maximum yields "summary"; otherwise "question" — so equal maximal
counts always favour code over summary over question. -/
theorem classify_tie_priority
    (code summary question : ℕ) (codeLike : Bool) (promptLen : ℕ)
    (h : 0 < max code (max summary question)) :
    (code = max code (max summary question) →
      classifyDecision code summary question codeLike promptLen = "code") ∧
    (code < max code (max summary question) →
     summary = max code (max summary question) →
      classifyDecision code summary question codeLike promptLen = "summary") ∧
    (code < max code (max summary question) →
     summary < max code (max summary question) →
      classifyDecision code summary question codeLike promptLen = "question") := by
  unfold classifyDecision
  rw [if_neg (by omega)]
  refine ⟨fun hc => by rw [if_pos hc], fun hc hs => ?_, fun hc hs => ?_⟩
  · rw [if_neg (by omega), if_pos hs]
  · rw [if_neg (by omega), if_neg (by omega)]

/-- C8 witness: at tied counts (3, 3, 3) the decision is "code"; at
(1, 2, 2) it is "summary". -/
theorem classify_tie_priority_witness :
    (0 < max 3 (max 3 3) ∧
      (3 = max 3 (max 3 3) → classifyDecision 3 3 3 false 5 = "code")) ∧
    (0 < max 1 (max 2 2) ∧
      (1 < max 1 (max 2 2) → 2 = max 1 (max 2 2) →
        classifyDecision 1 2 2 false 5 = "summary")) :=
  ⟨⟨by decide, (classify_tie_priority 3 3 3 false 5 (by decide)).1⟩,
   ⟨by decide, (classify_tie_priority 1 2 2 false 5 (by decide)).2.1⟩⟩

/-- Characterisation of the per-message scan: it succeeds exactly when
every message carries both keys. -/
theorem scanMessages_ok_iff (msgs : List GMessage) :
    scanMessages msgs = Except.ok () ↔
      ∀ m ∈ msgs, m.role.isSome ∧ m.content.isSome := by
  induction msgs with
  | nil => simp [scanMessages]
  | cons m rest ih =>
    cases hro : m.role with
    | none =>
      constructor
      · intro h
        unfold scanMessages at h
        rw [hro] at h
        simp at h
      · intro hall
        exfalso
        have := (hall m (by simp)).1
        rw [hro] at this
        simp at this
    | some r =>
      cases hco : m.content with
      | none =>
        constructor
        · intro h
          unfold scanMessages at h
          rw [hro, hco] at h
          simp at h
        · intro hall
          exfalso
          have := (hall m (by simp)).2
          rw [hco] at this
          simp at this
      | some c =>
        constructor
        · intro h
          unfold scanMessages at h
          rw [hro, hco] at h
          simp at h
          intro x hx
          rcases List.mem_cons.mp hx with rfl | hx
          · simp [hro, hco]
          · exact (ih.mp h) x hx
        · intro hall
          unfold scanMessages
          rw [hro, hco]
          simp
          exact ih.mpr fun x hx => hall x (List.mem_cons_of_mem m hx)

/-- C5 counterexample: a single message whose "role" and "content" keys
are both present but map to the empty string passes the gateway
validation, although the claim requires a validation error whenever some
message lacks a NON-EMPTY role or content. -/
theorem empty_role_passes_validation :
    validateMessages [⟨some "", some ""⟩] = Except.ok () := rfl

/-- C5 amended: the gateway validation fails exactly on an empty message
list or a message missing the "role" or the "content" key — key presence
only, values are not inspected — and a failed validation issues no
network request. -/
theorem validation_checks_key_presence (msgs : List GMessage) :
    (validateMessages msgs = Except.ok () ↔
      msgs ≠ [] ∧ ∀ m ∈ msgs, m.role.isSome ∧ m.content.isSome) ∧
    (∀ env callIdx model temperature maxTokens,
      validateMessages msgs ≠ Except.ok () →
      (send_prompt_to_openrouter env callIdx msgs model temperature maxTokens).2 = []) := by
  constructor
  · unfold validateMessages
    split
    next hemp =>
      simp only [List.isEmpty_iff] at hemp
      subst hemp
      simp
    next hemp =>
      simp only [List.isEmpty_iff] at hemp
      rw [scanMessages_ok_iff]
      simp [hemp]
  · intro env callIdx model temperature maxTokens hne
    unfold send_prompt_to_openrouter
    split
    next => rfl
    next heq => exact absurd (by rw [heq]) hne

/-- C5 amended-claim witness: a list with a complete message validates
and a message missing its "content" key does not; the failed validation
issues no network request. -/
theorem validation_checks_key_presence_witness :
    (validateMessages [⟨some "user", some "hi"⟩] = Except.ok () ↔
      ([⟨some "user", some "hi"⟩] : List GMessage) ≠ [] ∧
      ∀ m ∈ ([⟨some "user", some "hi"⟩] : List GMessage),
        m.role.isSome ∧ m.content.isSome) ∧
    validateMessages [⟨some "user", none⟩] ≠ Except.ok () ∧
    (send_prompt_to_openrouter envAllOk 0 [⟨some "user", none⟩] "modelA" 1 100).2 = [] :=
  ⟨(validation_checks_key_presence [⟨some "user", some "hi"⟩]).1,
   fun h => by
     have hh : validateMessages [⟨some "user", none⟩] =
         Except.error "Message is missing the content field" := rfl
     rw [hh] at h
     exact Except.noConfusion h,
   (validation_checks_key_presence [⟨some "user", none⟩]).2 envAllOk 0 "modelA" 1 100
     (fun h => by
       have hh : validateMessages [⟨some "user", none⟩] =
           Except.error "Message is missing the content field" := rfl
       rw [hh] at h
       exact Except.noConfusion h)⟩

/-- Insertion produces a permutation of consing. -/
theorem insertDescBy_perm (key : String × ModelCfg → ℚ) (x : String × ModelCfg) :
    ∀ l : List (String × ModelCfg), (insertDescBy key x l).Perm (x :: l) := by
  intro l
  induction l with
  | nil => simp [insertDescBy]
  | cons y ys ih =>
    unfold insertDescBy
    split
    · exact List.Perm.refl _
    · exact (ih.cons y).trans (List.Perm.swap x y ys)

/-- Sorting produces a permutation of the input. -/
theorem sortDescBy_perm (key : String × ModelCfg → ℚ) :
    ∀ l : List (String × ModelCfg), (sortDescBy key l).Perm l := by
  intro l
  induction l with
  | nil => simp [sortDescBy]
  | cons x xs ih =>
    exact (insertDescBy_perm key x (sortDescBy key xs)).trans (ih.cons x)

/-- Insertion preserves the non-increasing-key invariant. -/
theorem insertDescBy_pairwise (key : String × ModelCfg → ℚ) (x : String × ModelCfg)
    (l : List (String × ModelCfg))
    (h : l.Pairwise (fun a b => key b ≤ key a)) :
    (insertDescBy key x l).Pairwise (fun a b => key b ≤ key a) := by
  induction l with
  | nil => simp [insertDescBy]
  | cons y ys ih =>
    rw [List.pairwise_cons] at h
    obtain ⟨hy, hys⟩ := h
    unfold insertDescBy
    split
    next hle =>
      refine List.pairwise_cons.mpr ⟨?_, List.pairwise_cons.mpr ⟨hy, hys⟩⟩
      intro b hb
      rcases List.mem_cons.mp hb with rfl | hb
      · exact hle
      · exact le_trans (hy b hb) hle
    next hle =>
      refine List.pairwise_cons.mpr ⟨?_, ih hys⟩
      intro b hb
      have hb' : b = x ∨ b ∈ ys := by
        have := (insertDescBy_perm key x ys).mem_iff.mp hb
        simpa using this
      rcases hb' with rfl | hb'
      · exact le_of_not_le hle
      · exact hy b hb'

/-- The sorted view has non-increasing keys. -/
theorem sortDescBy_pairwise (key : String × ModelCfg → ℚ) :
    ∀ l : List (String × ModelCfg),
      (sortDescBy key l).Pairwise (fun a b => key b ≤ key a) := by
  intro l
  induction l with
  | nil => simp [sortDescBy]
  | cons x xs ih => exact insertDescBy_pairwise key x _ ih

/-- C6: with at least two models in the catalog, the quality strategy
resolves, for every known prompt type, to the head of the
price-descending order for the short and medium buckets — a model whose
price is maximal over the whole catalog — and to its second element for
the long bucket — a model whose price is maximal over the catalog with
one top-priced model removed. -/
theorem quality_strategy_price_rank (cfg : Config)
    (h2 : 2 ≤ cfg.models.length) (promptType : String)
    (hpt : isKnownPromptType promptType = true) :
    ∃ (m0 m1 : String × ModelCfg) (rest : List (String × ModelCfg)),
      sortDescBy qualityKey cfg.models = m0 :: m1 :: rest ∧
      strategyPreference cfg "quality" promptType "short" = some m0.1 ∧
      strategyPreference cfg "quality" promptType "medium" = some m0.1 ∧
      strategyPreference cfg "quality" promptType "long" = some m1.1 ∧
      (m0 :: m1 :: rest).Perm cfg.models ∧
      (∀ p ∈ cfg.models, qualityKey p ≤ qualityKey m0) ∧
      (∀ p ∈ rest, qualityKey p ≤ qualityKey m1) := by
  have hperm := sortDescBy_perm qualityKey cfg.models
  have hpw := sortDescBy_pairwise qualityKey cfg.models
  have hlen : (sortDescBy qualityKey cfg.models).length = cfg.models.length :=
    hperm.length_eq
  rcases hs : sortDescBy qualityKey cfg.models with _ | ⟨m0, _ | ⟨m1, rest⟩⟩
  · rw [hs] at hlen; simp at hlen; omega
  · rw [hs] at hlen; simp at hlen; omega
  · rw [hs] at hperm hpw
    refine ⟨m0, m1, rest, rfl, ?_, ?_, ?_, hperm, ?_, ?_⟩
    · unfold strategyPreference
      rw [if_neg (by simp), if_pos rfl, if_pos hpt, if_pos (Or.inl rfl)]
      unfold modelsByQuality
      rw [hs]
      rfl
    · unfold strategyPreference
      rw [if_neg (by simp), if_pos rfl, if_pos hpt, if_pos (Or.inr rfl)]
      unfold modelsByQuality
      rw [hs]
      rfl
    · unfold strategyPreference
      rw [if_neg (by simp), if_pos rfl, if_pos hpt,
          if_neg (by simp), if_pos rfl]
      unfold modelsByQuality
      rw [hs]
      simp
    · intro p hp
      have hp' : p ∈ m0 :: m1 :: rest := hperm.mem_iff.mpr hp
      rcases List.mem_cons.mp hp' with rfl | hp'
      · exact le_refl _
      · exact (List.pairwise_cons.mp hpw).1 p hp'
    · intro p hp
      have hpw' := (List.pairwise_cons.mp hpw).2
      exact (List.pairwise_cons.mp hpw').1 p hp

/-- C6 witness: on the concrete two-model catalog `cfgCE`, quality
resolves short and medium to the expensive "modelB" and long to the
cheaper "modelA". -/
theorem quality_strategy_price_rank_witness :
    (2 ≤ cfgCE.models.length ∧ isKnownPromptType "code" = true) ∧
    (∃ (m0 m1 : String × ModelCfg) (rest : List (String × ModelCfg)),
      sortDescBy qualityKey cfgCE.models = m0 :: m1 :: rest ∧
      strategyPreference cfgCE "quality" "code" "short" = some m0.1 ∧
      strategyPreference cfgCE "quality" "code" "medium" = some m0.1 ∧
      strategyPreference cfgCE "quality" "code" "long" = some m1.1 ∧
      (m0 :: m1 :: rest).Perm cfgCE.models ∧
      (∀ p ∈ cfgCE.models, qualityKey p ≤ qualityKey m0) ∧
      (∀ p ∈ rest, qualityKey p ≤ qualityKey m1)) ∧
    strategyPreference cfgCE "quality" "code" "short" = some "modelB" ∧
    strategyPreference cfgCE "quality" "code" "long" = some "modelA" :=
  by
  refine ⟨⟨by decide, by decide⟩,
    quality_strategy_price_rank cfgCE (by decide) "code" (by decide), ?_, ?_⟩
  · unfold strategyPreference
    rw [if_neg (by simp), if_pos rfl, if_pos (by decide), if_pos (Or.inl rfl)]
    norm_num [modelsByQuality, sortDescBy, insertDescBy, qualityKey,
      cfgCE, modelCfgA, modelCfgB]
  · unfold strategyPreference
    rw [if_neg (by simp), if_pos rfl, if_pos (by decide), if_neg (by simp),
      if_pos rfl]
    norm_num [modelsByQuality, sortDescBy, insertDescBy, qualityKey,
      cfgCE, modelCfgA, modelCfgB]

/-- Each gateway invocation issues at most one network request. -/
theorem gateway_calls_le_one (env : Env) (callIdx : ℕ) (msgs : List GMessage)
    (model : String) (temperature : ℚ) (maxTokens : ℕ) :
    (send_prompt_to_openrouter env callIdx msgs model temperature maxTokens).2.length ≤ 1 := by
  unfold send_prompt_to_openrouter
  split
  · simp
  · split <;> simp

/-- A `send_prompt` activation whose override is already the default
model never recurses: it issues at most two network requests (the
original and at most one context-length retry). -/
theorem sendPromptFuel_default_calls_le_two (fuel : ℕ) (env : Env) (r : Router)
    (msgs : List RMessage) (callIdx : ℕ) :
    (sendPromptFuel fuel env r msgs (some r.cfg.effectiveDefaultModel) callIdx).callLog.length ≤ 2 := by
  cases fuel with
  | zero => simp [sendPromptFuel]
  | succ n =>
    simp only [sendPromptFuel]
    split
    · simp
    · have h1 := gateway_calls_le_one env callIdx (msgs.map RMessage.toG)
        r.cfg.effectiveDefaultModel (effectiveTemperature r.cfg r.cfg.effectiveDefaultModel)
        (effectiveMaxTokens r.cfg r.cfg.effectiveDefaultModel)
      split
      next usage calls1 heq =>
        rw [heq] at h1
        simp at h1 ⊢
        omega
      next e calls1 heq =>
        rw [heq] at h1
        simp at h1
        split
        · have h2 := gateway_calls_le_one env (callIdx + calls1.length)
            (msgs.map RMessage.toG) r.cfg.effectiveDefaultModel
            (effectiveTemperature r.cfg r.cfg.effectiveDefaultModel)
            (max (effectiveMaxTokens r.cfg r.cfg.effectiveDefaultModel / 2) 500)
          split
          next usage2 calls2 heq2 =>
            rw [heq2] at h2
            simp at h2
            simp [List.length_append]
            omega
          next e2 calls2 heq2 =>
            rw [heq2] at h2
            simp at h2
            split
            next hne => exact absurd rfl hne
            next =>
              simp [List.length_append]
              omega
        · split
          next hne => exact absurd rfl hne
          next =>
            simp
            omega

/-- C1 amended: for every recursion budget, environment, router
configuration, message list and override, a `send_prompt` invocation
issues at most 4 network requests: the original call, at most one
context-length retry, at most one fallback call to the default model,
and at most one context-length retry of that fallback call. -/
theorem upstream_calls_le_four (fuel : ℕ) (env : Env) (r : Router)
    (msgs : List RMessage) (modelOverride : Option String) (callIdx : ℕ) :
    (sendPromptFuel fuel env r msgs modelOverride callIdx).callLog.length ≤ 4 := by
  cases fuel with
  | zero => simp [sendPromptFuel]
  | succ n =>
    simp only [sendPromptFuel]
    split
    · simp
    next lastUser heqLast =>
      set modelId := (match modelOverride with
        | some m => m
        | none => select_model env r lastUser.content) with hmodel
      have h1 := gateway_calls_le_one env callIdx (msgs.map RMessage.toG)
        modelId (effectiveTemperature r.cfg modelId) (effectiveMaxTokens r.cfg modelId)
      split
      next usage calls1 heq =>
        rw [heq] at h1
        simp at h1 ⊢
        omega
      next e calls1 heq =>
        rw [heq] at h1
        simp at h1
        split
        · have h2 := gateway_calls_le_one env (callIdx + calls1.length)
            (msgs.map RMessage.toG) modelId (effectiveTemperature r.cfg modelId)
            (max (effectiveMaxTokens r.cfg modelId / 2) 500)
          split
          next usage2 calls2 heq2 =>
            rw [heq2] at h2
            simp at h2
            simp [List.length_append]
            omega
          next e2 calls2 heq2 =>
            rw [heq2] at h2
            simp at h2
            split
            · have h3 := sendPromptFuel_default_calls_le_two n env r msgs
                (callIdx + calls1.length + calls2.length)
              simp [List.length_append]
              omega
            · simp [List.length_append]
              omega
        · split
          · have h3 := sendPromptFuel_default_calls_le_two n env r msgs
              (callIdx + calls1.length)
            simp [List.length_append]
            omega
          · simp
            omega

/-- C1 counterexample: with the default model "modelA", an explicit
override "modelB", and an upstream endpoint that answers every request
with a context-length error, a single `send_prompt` invocation issues 4
network requests — original, context retry, fallback, and the fallback's
own context retry — exceeding the claimed bound of 3. -/
theorem four_upstream_calls_possible :
    ¬ ((send_prompt envTokenFail (mkRouter cfgCE) msgsUser (some "modelB")).callLog.length ≤ 3) := by
  decide

/-- With the default model as override, the fallback guard is false and
the recursion budget is never consumed: one unit of fuel already gives
the final outcome. -/
theorem sendPromptFuel_default_stable (k : ℕ) (env : Env) (r : Router)
    (msgs : List RMessage) (callIdx : ℕ) :
    sendPromptFuel (k + 1) env r msgs (some r.cfg.effectiveDefaultModel) callIdx =
      sendPromptFuel 1 env r msgs (some r.cfg.effectiveDefaultModel) callIdx := by
  simp [sendPromptFuel]

/-- The fallback recursion of `send_prompt` is self-limiting: any budget
of at least two activations produces the same outcome as budget two, so
the fuel in the embedding is not a real restriction. -/
theorem sendPromptFuel_stable (k : ℕ) (env : Env) (r : Router)
    (msgs : List RMessage) (modelOverride : Option String) (callIdx : ℕ) :
    sendPromptFuel (k + 2) env r msgs modelOverride callIdx =
      sendPromptFuel 2 env r msgs modelOverride callIdx := by
  show sendPromptFuel ((k + 1) + 1) env r msgs modelOverride callIdx =
    sendPromptFuel (1 + 1) env r msgs modelOverride callIdx
  simp [sendPromptFuel]

/-- Outcome of a `send_prompt` activation with an override whose first
upstream request succeeds: the response is returned, one success record
and one ledger row are written, and exactly one network request is
issued. -/
theorem send_prompt_first_ok (env : Env) (r : Router) (msgs : List RMessage)
    (m : String) (lastUser : RMessage) (pt ct tt : ℕ)
    (hlast : (msgs.filter (fun x => x.role = "user")).getLast? = some lastUser)
    (hok : env.gateway 0 = GatewayResult.ok pt ct tt)
    (hval : validateMessages (msgs.map RMessage.toG) = Except.ok ()) :
    send_prompt env r msgs (some m) =
      ⟨SendResult.success ⟨pt, ct, tt, none⟩,
       [log_model_call m "manual" true ⟨pt, ct, tt, none⟩ true none
          (some (effectiveMaxTokens r.cfg m)) false],
       [log_api_call r.cfg m ⟨pt, ct, tt, none⟩],
       [⟨m, effectiveTemperature r.cfg m, effectiveMaxTokens r.cfg m⟩]⟩ := by
  unfold send_prompt
  simp only [sendPromptFuel, hlast]
  unfold send_prompt_to_openrouter
  simp only [hval, hok, Option.isSome_some]
  rfl

/-- C2, exhibiting the defect: on a successful upstream call with 1000
total tokens against "modelB" (price 15 per 1K tokens), the written call
record carries `success = true` and `cost = 0` — the "cost" key is read
from a usage dict that never contains it — while the spec's formula
`total_tokens * cost_per_1k_tokens(model_id) / 1000` gives 15, the value
the separate cost-tracker ledger row records. -/
theorem success_record_cost_zero_at_failing_input :
    ((send_prompt envAllOk (mkRouter cfgCE) msgsUser (some "modelB")).records.map
      (fun rec => (rec.success, rec.totalTokens, rec.cost)) = [(true, 1000, 0)]) ∧
    ((send_prompt envAllOk (mkRouter cfgCE) msgsUser (some "modelB")).ledger.map
      (fun entry => entry.cost) = [15]) ∧
    ((1000 : ℚ) * (((cfgCE.lookupModel "modelB").bind
        (fun m => m.costPer1k)).getD 0) / 1000 = 15) ∧
    (15 : ℚ) ≠ 0 := by
  have h := send_prompt_first_ok envAllOk (mkRouter cfgCE) msgsUser "modelB"
    ⟨"user", "hello"⟩ 400 600 1000 rfl rfl rfl
  refine ⟨?_, ?_, ?_, by norm_num⟩
  · rw [h]
    simp [log_model_call]
  · rw [h]
    have hl : (mkRouter cfgCE).cfg.lookupModel "modelB" = some modelCfgB := rfl
    simp only [List.map, log_api_call, hl, modelCfgB, Option.bind_some, Option.getD_some]
    norm_num
  · have hl : ((cfgCE.lookupModel "modelB").bind (fun m => m.costPer1k)).getD 0 = (15 : ℚ) := rfl
    rw [hl]
    norm_num

/-- Any `send_prompt` activation that finds a user message and whose
messages pass the gateway validation issues its first network request
against its selected model with that model's configured temperature and
(capped) max_tokens. -/
theorem sendPrompt_calls_head (fuel : ℕ) (env : Env) (r : Router)
    (msgs : List RMessage) (m : String) (lastUser : RMessage) (callIdx : ℕ)
    (hlast : (msgs.filter (fun x => x.role = "user")).getLast? = some lastUser)
    (hval : validateMessages (msgs.map RMessage.toG) = Except.ok ()) :
    ∃ tail, (sendPromptFuel (fuel + 1) env r msgs (some m) callIdx).callLog =
      ⟨m, effectiveTemperature r.cfg m, effectiveMaxTokens r.cfg m⟩ :: tail := by
  simp only [sendPromptFuel, hlast]
  have hgw : ∀ idx mt, send_prompt_to_openrouter env idx (msgs.map RMessage.toG) m
      (effectiveTemperature r.cfg m) mt =
      (match env.gateway idx with
       | GatewayResult.ok pt ct tt => Except.ok ⟨pt, ct, tt, none⟩
       | GatewayResult.err e => Except.error e,
       [⟨m, effectiveTemperature r.cfg m, mt⟩]) := by
    intro idx mt
    unfold send_prompt_to_openrouter
    rw [hval]
    cases env.gateway idx <;> rfl
  rw [hgw]
  cases env.gateway callIdx with
  | ok pt ct tt => exact ⟨[], rfl⟩
  | err e =>
    simp only
    split
    · rw [hgw]
      split
      · exact ⟨_, rfl⟩
      · split
        · exact ⟨_, rfl⟩
        · exact ⟨_, rfl⟩
    · split
      · exact ⟨_, rfl⟩
      · exact ⟨_, rfl⟩

/-- C10: when no message in the list has role "user", `send_prompt`
raises its ValueError before any network request is issued, any call
record is written, or any cost-ledger row is added: the outcome carries
empty record, ledger and call logs. -/
theorem no_user_message_value_error (env : Env) (r : Router)
    (msgs : List RMessage) (modelOverride : Option String)
    (h : ∀ m ∈ msgs, m.role ≠ "user") :
    send_prompt env r msgs modelOverride =
      ⟨SendResult.valueError, [], [], []⟩ := by
  have hfilter : msgs.filter (fun x => x.role = "user") = [] :=
    List.filter_eq_nil_iff.mpr fun x hx => by
      simp only [decide_eq_true_eq]
      exact h x hx
  unfold send_prompt
  simp only [sendPromptFuel, hfilter]
  rfl

/-- C10 witness: a system-only conversation yields the ValueError
outcome with nothing recorded. -/
theorem no_user_message_value_error_witness :
    (∀ m ∈ ([⟨"system", "x"⟩] : List RMessage), m.role ≠ "user") ∧
    send_prompt envAllOk (mkRouter cfgCE) [⟨"system", "x"⟩] none =
      ⟨SendResult.valueError, [], [], []⟩ :=
  ⟨by decide,
   no_user_message_value_error envAllOk (mkRouter cfgCE) [⟨"system", "x"⟩] none
     (by decide)⟩

/-- C4: when the first upstream request fails with a token-limit error,
`send_prompt` retries exactly once with the same model and max_tokens
reduced to `max(max_tokens // 2, 500)`; when the retry also fails and the
model is not the default model, a fallback record with strategy
"fallback" for the failing model is written and the third network
request goes to the default model. -/
theorem context_retry_then_fallback (env : Env) (r : Router)
    (msgs : List RMessage) (m : String) (lastUser : RMessage) (e e2 : String)
    (hlast : (msgs.filter (fun x => x.role = "user")).getLast? = some lastUser)
    (hval : validateMessages (msgs.map RMessage.toG) = Except.ok ())
    (h0 : env.gateway 0 = GatewayResult.err e)
    (htok : isTokenLimitError e = true)
    (h1 : env.gateway 1 = GatewayResult.err e2)
    (hm : m ≠ r.cfg.effectiveDefaultModel) :
    ((send_prompt env r msgs (some m)).callLog.take 2 =
      [⟨m, effectiveTemperature r.cfg m, effectiveMaxTokens r.cfg m⟩,
       ⟨m, effectiveTemperature r.cfg m, max (effectiveMaxTokens r.cfg m / 2) 500⟩]) ∧
    (((send_prompt env r msgs (some m)).callLog.map (fun c => c.model)).take 3 =
      [m, m, r.cfg.effectiveDefaultModel]) ∧
    (∃ rec ∈ (send_prompt env r msgs (some m)).records,
      rec.strategy = "fallback" ∧ rec.modelId = m ∧ rec.success = false) := by
  have egw1 : send_prompt_to_openrouter env 0 (msgs.map RMessage.toG) m
      (effectiveTemperature r.cfg m) (effectiveMaxTokens r.cfg m) =
      (Except.error e,
       [⟨m, effectiveTemperature r.cfg m, effectiveMaxTokens r.cfg m⟩]) := by
    unfold send_prompt_to_openrouter
    rw [hval, h0]
  have egw2 : send_prompt_to_openrouter env 1 (msgs.map RMessage.toG) m
      (effectiveTemperature r.cfg m) (max (effectiveMaxTokens r.cfg m / 2) 500) =
      (Except.error e2,
       [⟨m, effectiveTemperature r.cfg m, max (effectiveMaxTokens r.cfg m / 2) 500⟩]) := by
    unfold send_prompt_to_openrouter
    rw [hval, h1]
  have egw3 : ∀ idx mt, send_prompt_to_openrouter env idx (msgs.map RMessage.toG)
      r.cfg.effectiveDefaultModel
      (effectiveTemperature r.cfg r.cfg.effectiveDefaultModel) mt =
      (match env.gateway idx with
       | GatewayResult.ok pt ct tt => Except.ok ⟨pt, ct, tt, none⟩
       | GatewayResult.err e3 => Except.error e3,
       [⟨r.cfg.effectiveDefaultModel,
         effectiveTemperature r.cfg r.cfg.effectiveDefaultModel, mt⟩]) := by
    intro idx mt
    unfold send_prompt_to_openrouter
    rw [hval]
    cases env.gateway idx <;> rfl
  unfold send_prompt
  simp only [sendPromptFuel, hlast, egw1, List.length_cons, List.length_nil,
    zero_add, htok, if_true, egw2, Nat.reduceAdd]
  rw [if_pos hm]
  refine ⟨rfl, ?_, ?_⟩
  · rw [egw3]
    cases env.gateway 2 with
    | ok pt ct tt => rfl
    | err e3 =>
      simp only
      split
      · rw [egw3]
        split
        · rfl
        · split
          next hne => exact absurd rfl hne
          next => rfl
      · split
        next hne => exact absurd rfl hne
        next => rfl
  · exact ⟨log_model_call m "fallback" false
      ⟨env.tokenEstimate lastUser.content, 0, env.tokenEstimate lastUser.content, none⟩
      false (some e) none false,
      List.mem_append_left _
        (List.mem_cons_of_mem _ (List.mem_cons_of_mem _ (List.mem_cons_self _ _))),
      rfl, rfl, rfl⟩

/-- C4 witness: with "modelA" (configured max_tokens 1000) chosen while
"modelB" is the default, and every upstream request failing with a
context-length error, the retry goes to "modelA" with max_tokens
`max(1000 // 2, 500) = 500`, a "fallback" record is written for
"modelA", and the third request goes to the default model. -/
theorem context_retry_then_fallback_witness :
    (envTokenFail.gateway 0 = GatewayResult.err "maximum context length exceeded" ∧
     isTokenLimitError "maximum context length exceeded" = true ∧
     envTokenFail.gateway 1 = GatewayResult.err "maximum context length exceeded" ∧
     "modelA" ≠ (mkRouter cfgC4).cfg.effectiveDefaultModel) ∧
    (((send_prompt envTokenFail (mkRouter cfgC4) msgsUser (some "modelA")).callLog.take 2 =
      [⟨"modelA", effectiveTemperature (mkRouter cfgC4).cfg "modelA",
        effectiveMaxTokens (mkRouter cfgC4).cfg "modelA"⟩,
       ⟨"modelA", effectiveTemperature (mkRouter cfgC4).cfg "modelA",
        max (effectiveMaxTokens (mkRouter cfgC4).cfg "modelA" / 2) 500⟩]) ∧
     (((send_prompt envTokenFail (mkRouter cfgC4) msgsUser (some "modelA")).callLog.map
        (fun c => c.model)).take 3 =
       ["modelA", "modelA", (mkRouter cfgC4).cfg.effectiveDefaultModel]) ∧
     (∃ rec ∈ (send_prompt envTokenFail (mkRouter cfgC4) msgsUser (some "modelA")).records,
       rec.strategy = "fallback" ∧ rec.modelId = "modelA" ∧ rec.success = false)) ∧
    effectiveMaxTokens (mkRouter cfgC4).cfg "modelA" = 1000 ∧
    max (effectiveMaxTokens (mkRouter cfgC4).cfg "modelA" / 2) 500 = 500 :=
  ⟨⟨rfl, by decide, rfl, by decide⟩,
   context_retry_then_fallback envTokenFail (mkRouter cfgC4) msgsUser "modelA"
     ⟨"user", "hello"⟩ "maximum context length exceeded"
     "maximum context length exceeded" rfl rfl rfl (by decide) rfl (by decide),
   by decide, by decide⟩

end BestRoute
